import Mathlib

/-!
Verification of the Gesture Decision Engine
(`gestureDecisionEngine.js` of the corporate-hand-translator repository).

The engine sits between raw ML predictions and the UI: it applies a
thumb-dominance geometric gate, stability voting over a bounded buffer,
and a cooldown lock after each accepted gesture.

Shallow embedding conventions:
`*` JavaScript numbers are modelled as real numbers (`ℝ`); timestamps
  (`Date.now()` milliseconds) as integers (`ℤ`).  All reads of
  `Date.now()` within one call are modelled by a single `now` parameter.
`*` The mutable class instance becomes an explicit `EngineState` value
  threaded through each operation.
`*` A JavaScript exception (`TypeError` from accessing a property of
  `undefined`, e.g. a missing landmark) is modelled by `Except.error`
  carrying the state as mutated up to the point of the throw.
`*` A `null`/`undefined`/`''` (falsy) label is modelled as the empty
  string `""`; missing landmark-array entries as `List.getElem?`
  returning `none`.
-/

-- ──────────────────────────────────────────────
-- Configuration (source lines 26, 29, 36, 44)
-- ──────────────────────────────────────────────

/-- Number of consecutive frames required to stabilize a gesture. -/
def STABILITY_FRAMES : ℕ := 8

/-- Cooldown duration (ms) after accepting a gesture. -/
def GESTURE_COOLDOWN_MS : ℤ := 2500

/-- Thumb dominance threshold for THUMBS_UP. -/
noncomputable def THUMB_DOMINANCE_THRESHOLD : ℝ := 1.3

/-- Confidence tie-break threshold (declared in the source, unused by the
current tie-break stub). -/
noncomputable def CONFIDENCE_TIE_BREAK_THRESHOLD : ℝ := 0.1

-- ──────────────────────────────────────────────
-- MediaPipe hand landmark indices (source lines 50-57)
-- ──────────────────────────────────────────────

namespace LANDMARKS

def WRIST : ℕ := 0

def THUMB_TIP : ℕ := 4

def INDEX_TIP : ℕ := 8

def MIDDLE_TIP : ℕ := 12

def RING_TIP : ℕ := 16

def PINKY_TIP : ℕ := 20

end LANDMARKS

-- ──────────────────────────────────────────────
-- Data model
-- ──────────────────────────────────────────────

/-- One 3D hand landmark `\x7b x, y, z \x7d`. -/
structure Landmark where
  x : ℝ
  y : ℝ
  z : ℝ

/-- One stability-buffer entry `\x7b label, confidence, timestamp \x7d`
(source lines 225-229). -/
structure StabilitySample where
  label : String
  confidence : ℝ
  timestamp : ℤ

/-- Output of `predictGesture()` as destructured by `processFrame`
(source line 291).  `gestureType` and `phrase` are destructured by the
source but never used. -/
structure MLPrediction where
  label : String
  confidence : ℝ
  gestureType : String
  phrase : String

/-- The object returned by `processFrame` on acceptance
(source lines 326-331). -/
structure GestureEvent where
  label : String
  gestureType : Option String
  phrase : String
  reason : String

/-- The mutable fields of the `GestureDecisionEngine` class
(source lines 64-88). -/
structure EngineState where
  stabilityBuffer : List StabilitySample
  acceptedGesture : Option String
  acceptedTimestamp : ℤ
  inCooldown : Bool

/-- The constructor state (source lines 64-88). -/
def initState : EngineState :=
  { stabilityBuffer := []
    acceptedGesture := none
    acceptedTimestamp := 0
    inCooldown := false }

/-- `reset()` (source lines 94-99): clears every field. -/
def reset (_s : EngineState) : EngineState :=
  { stabilityBuffer := []
    acceptedGesture := none
    acceptedTimestamp := 0
    inCooldown := false }

/-- `onHandDisappear()` (source lines 343-345): delegates to `reset()`. -/
def onHandDisappear (s : EngineState) : EngineState :=
  reset s

-- ──────────────────────────────────────────────
-- Geometry
-- ──────────────────────────────────────────────

/-- `_computeDistance(wrist, tip)` (source lines 109-114): Euclidean
distance between two landmarks. -/
noncomputable def computeDistance (wrist tip : Landmark) : ℝ :=
  let dx := tip.x - wrist.x
  let dy := tip.y - wrist.y
  let dz := tip.z - wrist.z
  Real.sqrt (dx * dx + dy * dy + dz * dz)

/-- `_validateThumbDominance(landmarks)` (source lines 129-147).
Returns `none` when one of the six accessed landmarks is missing
(the JavaScript would throw a `TypeError` on `tip.x`/`wrist.x`). -/
noncomputable def validateThumbDominance (landmarks : List Landmark) :
    Option Bool :=
  match landmarks[LANDMARKS.WRIST]?, landmarks[LANDMARKS.THUMB_TIP]?,
      landmarks[LANDMARKS.INDEX_TIP]?, landmarks[LANDMARKS.MIDDLE_TIP]?,
      landmarks[LANDMARKS.RING_TIP]?, landmarks[LANDMARKS.PINKY_TIP]? with
  | some wrist, some thumbTip, some indexTip, some middleTip, some ringTip,
      some pinkyTip =>
    let thumbDist := computeDistance wrist thumbTip
    let indexDist := computeDistance wrist indexTip
    let middleDist := computeDistance wrist middleTip
    let ringDist := computeDistance wrist ringTip
    let pinkyDist := computeDistance wrist pinkyTip
    -- `Math.max(...otherFingerDists)` over the four non-thumb distances
    let maxOtherDist := max indexDist (max middleDist (max ringDist pinkyDist))
    -- Thumb must be significantly more extended than all other fingers
    some (decide (thumbDist > THUMB_DOMINANCE_THRESHOLD * maxOtherDist))
  | _, _, _, _, _, _ => none

/-- `_applyTieBreaking(label, confidence, fullPredictionObject)`
(source lines 167-182): a forward-compatible stub that returns the label
unchanged. -/
def applyTieBreaking (label : String) (_confidence : ℝ) : String :=
  label

/-- `_applyDecisionGates(label, confidence, landmarks)`
(source lines 196-210).  `none` models the `TypeError` thrown inside the
thumb-dominance gate on a malformed pose. -/
noncomputable def applyDecisionGates (label : String) (confidence : ℝ)
    (landmarks : List Landmark) : Option String :=
  if label = "THUMBS_UP" then
    match validateThumbDominance landmarks with
    | none => none
    | some isValid =>
      if isValid then some (applyTieBreaking label confidence)
      else
        -- Thumb is not dominant: this is actually CLOSED_FIST with thumb out
        some "CLOSED_FIST"
  else some (applyTieBreaking label confidence)

-- ──────────────────────────────────────────────
-- Label → UI mappings (source lines 351-371)
-- ──────────────────────────────────────────────

/-- `_labelToGestureType(label)`: `mapping[label] || null`. -/
def labelToGestureType (label : String) : Option String :=
  if label = "OPEN_PALM" then some "open-palm"
  else if label = "CLOSED_FIST" then some "fist"
  else if label = "THUMBS_UP" then some "thumbs-up"
  else if label = "POINTING_UP" then some "pointing"
  else if label = "PEACE_SIGN" then some "peace"
  else none

/-- `_labelToPhrase(label)`: `mapping[label] || 'Waiting for input…'`. -/
def labelToPhrase (label : String) : String :=
  if label = "OPEN_PALM" then "Let\x27s put a pin in that for now."
  else if label = "CLOSED_FIST" then
    "We need to circle back to the core deliverables."
  else if label = "THUMBS_UP" then "I am fully aligned with this initiative."
  else if label = "POINTING_UP" then "Let\x27s take this offline."
  else if label = "PEACE_SIGN" then
    "We have verified the cross-functional synergy."
  else "Waiting for input…"

-- ──────────────────────────────────────────────
-- Stability voting and cooldown
-- ──────────────────────────────────────────────

/-- `_updateStabilityBuffer(label, confidence)` (source lines 223-250):
push the new sample, `shift()` once if the buffer exceeds
`STABILITY_FRAMES`, then report the label if the (full) buffer agrees. -/
def updateStabilityBuffer (s : EngineState) (label : String)
    (confidence : ℝ) (now : ℤ) : EngineState × Option String :=
  let pushed := s.stabilityBuffer ++
    [{ label := label, confidence := confidence, timestamp := now }]
  -- Keep buffer size bounded
  let bounded := if STABILITY_FRAMES < pushed.length then pushed.tail else pushed
  -- Check if all recent frames agree
  let stable : Option String :=
    if bounded.length = STABILITY_FRAMES then
      match bounded.head? with
      | some p0 =>
        if bounded.all (fun p => p.label == p0.label) then some p0.label
        else none
      | none => none
    else none
  ({ s with stabilityBuffer := bounded }, stable)

/-- `_isInCooldown()` (source lines 259-272).  Returns the boolean the
source returns together with the (possibly refreshed) state: the source
lazily clears the `inCooldown` flag once the cooldown has elapsed. -/
def isInCooldown (s : EngineState) (now : ℤ) : Bool × EngineState :=
  if s.inCooldown = false ∨ s.acceptedTimestamp = 0 then (false, s)
  else if now - s.acceptedTimestamp < GESTURE_COOLDOWN_MS then (true, s)
  else (false, { s with inCooldown := false })

-- ──────────────────────────────────────────────
-- Frame processing (source lines 290-337)
-- ──────────────────────────────────────────────

/-- `processFrame(mlPrediction, landmarks)` (source lines 290-337).
`Except.error` models the `TypeError` thrown out of the thumb-dominance
gate; it carries the state as mutated before the throw. -/
noncomputable def processFrame (s : EngineState)
    (mlPrediction : MLPrediction) (landmarks : List Landmark) (now : ℤ) :
    Except EngineState (EngineState × Option GestureEvent) :=
  -- Ignore if gesture is null (low confidence from model)
  if mlPrediction.label = "" ∨ mlPrediction.label = "NONE" then .ok (s, none)
  else
    -- Check cooldown: ignore all gestures during cooldown
    match isInCooldown s now with
    | (true, s1) => .ok (s1, none)
    | (false, s1) =>
      -- Apply decision gates (thumb dominance, tie-breaking)
      match applyDecisionGates mlPrediction.label mlPrediction.confidence
          landmarks with
      | none => .error s1
      | some gatedLabel =>
        let finalGestureType := labelToGestureType gatedLabel
        let finalPhrase := labelToPhrase gatedLabel
        -- Feed into stability voting
        match updateStabilityBuffer s1 gatedLabel mlPrediction.confidence
            now with
        | (s2, some stableLabel) =>
          if some stableLabel ≠ s2.acceptedGesture then
            -- New gesture detected: accept it
            .ok ({ s2 with
                    acceptedGesture := some stableLabel
                    acceptedTimestamp := now
                    inCooldown := true
                    stabilityBuffer := [] },
              some { label := stableLabel
                     gestureType := finalGestureType
                     phrase := finalPhrase
                     reason := "stable (" ++ toString STABILITY_FRAMES ++
                       " frames)" })
          else .ok (s2, none)
        | (s2, none) => .ok (s2, none)

/-- `getEngineState()` (source lines 401-410), parametrised by the
`Date.now()` read. -/
def getEngineState (s : EngineState) (now : ℤ) :
    Option String × Bool × ℕ × ℤ :=
  (s.acceptedGesture, s.inCooldown, s.stabilityBuffer.length,
    if s.inCooldown then
      max 0 (GESTURE_COOLDOWN_MS - (now - s.acceptedTimestamp))
    else 0)

-- ──────────────────────────────────────────────
-- Harness for sequences of calls
-- ──────────────────────────────────────────────

/-- One call to `processFrame`: the prediction, the landmark array and the
`Date.now()` value during the call. -/
structure Frame where
  pred : MLPrediction
  lms : List Landmark
  now : ℤ

/-- The stability sample that a frame with gated label `l` pushes. -/
def sampleOf (l : String) (f : Frame) : StabilitySample :=
  { label := l, confidence := f.pred.confidence, timestamp := f.now }

/-- A frame whose label survives the null/NONE check and whose decision
gates resolve to the (post-gate) label `l` without throwing. -/
def okFrame (f : Frame) (l : String) : Prop :=
  f.pred.label ≠ "" ∧ f.pred.label ≠ "NONE" ∧
    applyDecisionGates f.pred.label f.pred.confidence f.lms = some l

/-- Run a sequence of `processFrame` calls, collecting the per-call
events; a thrown exception aborts the run (as in JavaScript). -/
noncomputable def runFrames (s : EngineState) :
    List Frame → Except EngineState (EngineState × List (Option GestureEvent))
  | [] => .ok (s, [])
  | f :: fs =>
    match processFrame s f.pred f.lms f.now with
    | .error e => .error e
    | .ok (s', ev) =>
      match runFrames s' fs with
      | .error e => .error e
      | .ok (s'', evs) => .ok (s'', ev :: evs)

/-- The engine state immediately after accepting label `l` at time `t`
(source lines 321-324): buffer cleared, lock engaged. -/
def acceptState (l : String) (t : ℤ) : EngineState :=
  { stabilityBuffer := []
    acceptedGesture := some l
    acceptedTimestamp := t
    inCooldown := true }

/-- The event emitted when label `l` is accepted (source lines 326-331). -/
def acceptEvent (l : String) : GestureEvent :=
  { label := l
    gestureType := labelToGestureType l
    phrase := labelToPhrase l
    reason := "stable (" ++ toString STABILITY_FRAMES ++ " frames)" }

/-- A concrete test frame: label `l`, confidence 1, empty landmark list,
call time `t`. -/
def wFrame (l : String) (t : ℤ) : Frame :=
  { pred := { label := l, confidence := 1, gestureType := "", phrase := "" }
    lms := []
    now := t }

/-- A concrete 21-point pose sitting exactly on the thumb-dominance
boundary: wrist at the origin, the four non-thumb fingertips at distance
1, the thumb tip at distance 13/10 = `THUMB_DOMINANCE_THRESHOLD` times
the maximum non-thumb distance; all other landmarks at the wrist. -/
noncomputable def boundaryPose : List Landmark :=
  [⟨0, 0, 0⟩, ⟨0, 0, 0⟩, ⟨0, 0, 0⟩, ⟨0, 0, 0⟩, ⟨13 / 10, 0, 0⟩,
   ⟨0, 0, 0⟩, ⟨0, 0, 0⟩, ⟨0, 0, 0⟩, ⟨1, 0, 0⟩,
   ⟨0, 0, 0⟩, ⟨0, 0, 0⟩, ⟨0, 0, 0⟩, ⟨1, 0, 0⟩,
   ⟨0, 0, 0⟩, ⟨0, 0, 0⟩, ⟨0, 0, 0⟩, ⟨1, 0, 0⟩,
   ⟨0, 0, 0⟩, ⟨0, 0, 0⟩, ⟨0, 0, 0⟩, ⟨1, 0, 0⟩]


-- ──────────────────────────────────────────────
-- Helper views of the stability-buffer update
-- ──────────────────────────────────────────────

/-- The push-then-trim part of `_updateStabilityBuffer`, as a function of
the plain buffer. -/
def pushBound (buf : List StabilitySample) (x : StabilitySample) :
    List StabilitySample :=
  let pushed := buf ++ [x]
  if STABILITY_FRAMES < pushed.length then pushed.tail else pushed

/-- The all-frames-agree check of `_updateStabilityBuffer`, as a function
of the trimmed buffer. -/
def stableCheck (bounded : List StabilitySample) : Option String :=
  if bounded.length = STABILITY_FRAMES then
    match bounded.head? with
    | some p0 =>
      if bounded.all (fun p => p.label == p0.label) then some p0.label
      else none
    | none => none
  else none

lemma updateStabilityBuffer_eq (s : EngineState) (label : String)
    (confidence : ℝ) (now : ℤ) :
    updateStabilityBuffer s label confidence now =
      ({ s with stabilityBuffer :=
          pushBound s.stabilityBuffer ⟨label, confidence, now⟩ },
        stableCheck (pushBound s.stabilityBuffer ⟨label, confidence, now⟩)) :=
  rfl

lemma pushBound_small (buf : List StabilitySample) (x : StabilitySample)
    (h : buf.length < STABILITY_FRAMES) : pushBound buf x = buf ++ [x] := by
  unfold pushBound
  rw [if_neg (by simp; omega)]

lemma pushBound_full (buf : List StabilitySample) (x : StabilitySample)
    (h : buf.length = STABILITY_FRAMES) :
    pushBound buf x = buf.tail ++ [x] := by
  unfold pushBound
  rw [if_pos (by simp; omega)]
  obtain ⟨p0, rest, hcons⟩ := List.exists_cons_of_ne_nil
    (show buf ≠ [] by intro hnil; rw [hnil] at h; simp [STABILITY_FRAMES] at h)
  rw [hcons]
  simp

lemma stableCheck_short (bounded : List StabilitySample)
    (h : bounded.length ≠ STABILITY_FRAMES) : stableCheck bounded = none := by
  unfold stableCheck
  rw [if_neg h]

lemma stableCheck_mixed (bounded : List StabilitySample)
    (p q : StabilitySample) (hp : p ∈ bounded) (hq : q ∈ bounded)
    (hpq : p.label ≠ q.label) : stableCheck bounded = none := by
  unfold stableCheck
  split
  case isFalse => rfl
  case isTrue hlen =>
    match h0 : bounded.head? with
    | none => rfl
    | some p0 =>
      dsimp only
      rw [if_neg]
      intro hall
      simp only [List.all_eq_true, beq_iff_eq] at hall
      exact hpq ((hall p hp).trans (hall q hq).symm)

lemma stableCheck_all (bounded : List StabilitySample) (l : String)
    (hlen : bounded.length = STABILITY_FRAMES)
    (hall : ∀ p ∈ bounded, p.label = l) : stableCheck bounded = some l := by
  unfold stableCheck
  rw [if_pos hlen]
  obtain ⟨p0, rest, hcons⟩ := List.exists_cons_of_ne_nil
    (show bounded ≠ [] by
      intro hnil; rw [hnil] at hlen; simp [STABILITY_FRAMES] at hlen)
  subst hcons
  simp only [List.head?_cons]
  have hp0 : p0.label = l := hall p0 (List.mem_cons_self _ _)
  rw [if_pos, hp0]
  simp only [List.all_eq_true, beq_iff_eq]
  intro p hp
  rw [hall p hp, hp0]

-- ──────────────────────────────────────────────
-- Cooldown characterizations
-- ──────────────────────────────────────────────

lemma isInCooldown_of_flag_false {s : EngineState} (now : ℤ)
    (h : s.inCooldown = false) : isInCooldown s now = (false, s) := by
  unfold isInCooldown
  rw [if_pos (Or.inl h)]

lemma isInCooldown_active {s : EngineState} (now : ℤ)
    (h1 : s.inCooldown = true) (h2 : s.acceptedTimestamp ≠ 0)
    (h3 : now - s.acceptedTimestamp < GESTURE_COOLDOWN_MS) :
    isInCooldown s now = (true, s) := by
  unfold isInCooldown
  rw [if_neg (by simp [h1, h2]), if_pos h3]

lemma isInCooldown_expired {s : EngineState} (now : ℤ)
    (h1 : s.inCooldown = true) (h2 : s.acceptedTimestamp ≠ 0)
    (h3 : ¬ now - s.acceptedTimestamp < GESTURE_COOLDOWN_MS) :
    isInCooldown s now = (false, { s with inCooldown := false }) := by
  unfold isInCooldown
  rw [if_neg (by simp [h1, h2]), if_neg h3]

lemma applyDecisionGates_of_ne (label : String) (confidence : ℝ)
    (lms : List Landmark) (h : label ≠ "THUMBS_UP") :
    applyDecisionGates label confidence lms = some label := by
  unfold applyDecisionGates
  rw [if_neg h]
  rfl

-- ──────────────────────────────────────────────
-- processFrame reductions
-- ──────────────────────────────────────────────

/-- The null/NONE short-circuit (source lines 293-298): a falsy or NONE
label returns immediately, leaving the state untouched. -/
lemma processFrame_sentinel (s : EngineState) (pred : MLPrediction)
    (lms : List Landmark) (now : ℤ)
    (h : pred.label = "" ∨ pred.label = "NONE") :
    processFrame s pred lms now = .ok (s, none) := by
  unfold processFrame
  rw [if_pos h]

/-- The cooldown hard gate (source lines 300-304): while the cooldown is
active, any non-sentinel frame is silently ignored and the state is left
exactly as it was. -/
lemma processFrame_locked (s : EngineState) (pred : MLPrediction)
    (lms : List Landmark) (now : ℤ)
    (h0 : pred.label ≠ "") (h0' : pred.label ≠ "NONE")
    (h1 : s.inCooldown = true) (h2 : s.acceptedTimestamp ≠ 0)
    (h3 : now - s.acceptedTimestamp < GESTURE_COOLDOWN_MS) :
    processFrame s pred lms now = .ok (s, none) := by
  unfold processFrame
  rw [if_neg (by simp [h0, h0']), isInCooldown_active now h1 h2 h3]

/-- With the cooldown flag clear, `processFrame` reduces to the stability
voting step on the gated label. -/
lemma processFrame_idle (s : EngineState) (f : Frame) (l : String)
    (hcd : s.inCooldown = false) (hf : okFrame f l) :
    processFrame s f.pred f.lms f.now =
      match updateStabilityBuffer s l f.pred.confidence f.now with
      | (s2, some stableLabel) =>
        if some stableLabel ≠ s2.acceptedGesture then
          .ok ({ s2 with
                  acceptedGesture := some stableLabel
                  acceptedTimestamp := f.now
                  inCooldown := true
                  stabilityBuffer := [] },
            some { label := stableLabel
                   gestureType := labelToGestureType l
                   phrase := labelToPhrase l
                   reason := "stable (" ++ toString STABILITY_FRAMES ++
                     " frames)" })
        else .ok (s2, none)
      | (s2, none) => .ok (s2, none) := by
  obtain ⟨h0, h0', hg⟩ := hf
  unfold processFrame
  rw [if_neg (by simp [h0, h0']), isInCooldown_of_flag_false f.now hcd, hg]

/-- A frame whose cooldown just expired behaves exactly like the same
frame fed to the state with the flag lazily cleared. -/
lemma processFrame_expiry (s : EngineState) (f : Frame)
    (h0 : f.pred.label ≠ "") (h0' : f.pred.label ≠ "NONE")
    (h1 : s.inCooldown = true) (h2 : s.acceptedTimestamp ≠ 0)
    (h3 : ¬ f.now - s.acceptedTimestamp < GESTURE_COOLDOWN_MS) :
    processFrame s f.pred f.lms f.now =
      processFrame { s with inCooldown := false } f.pred f.lms f.now := by
  unfold processFrame
  rw [isInCooldown_expired f.now h1 h2 h3,
    isInCooldown_of_flag_false (s := { s with inCooldown := false }) f.now rfl]
  simp only [if_neg (show ¬(f.pred.label = "" ∨ f.pred.label = "NONE") from by
    simp [h0, h0'])]

-- ──────────────────────────────────────────────
-- runFrames composition
-- ──────────────────────────────────────────────

lemma runFrames_nil (s : EngineState) : runFrames s [] = .ok (s, []) := rfl

lemma runFrames_cons (s : EngineState) (f : Frame) (fs : List Frame) :
    runFrames s (f :: fs) =
      match processFrame s f.pred f.lms f.now with
      | .error e => .error e
      | .ok (s', ev) =>
        match runFrames s' fs with
        | .error e => .error e
        | .ok (s'', evs) => .ok (s'', ev :: evs) := rfl

lemma runFrames_cons_ok (s s' : EngineState) (ev : Option GestureEvent)
    (f : Frame) (fs : List Frame)
    (h : processFrame s f.pred f.lms f.now = .ok (s', ev)) :
    runFrames s (f :: fs) =
      match runFrames s' fs with
      | .error e => .error e
      | .ok (s'', evs) => .ok (s'', ev :: evs) := by
  rw [runFrames_cons, h]

lemma runFrames_append (s s1 s2 : EngineState) (as bs : List Frame)
    (evs1 evs2 : List (Option GestureEvent))
    (h1 : runFrames s as = .ok (s1, evs1))
    (h2 : runFrames s1 bs = .ok (s2, evs2)) :
    runFrames s (as ++ bs) = .ok (s2, evs1 ++ evs2) := by
  induction as generalizing s evs1 with
  | nil =>
    rw [runFrames_nil] at h1
    simp only [Except.ok.injEq, Prod.mk.injEq] at h1
    obtain ⟨rfl, rfl⟩ := h1
    simpa using h2
  | cons f fs ih =>
    rw [runFrames_cons] at h1
    rw [List.cons_append, runFrames_cons]
    cases hpf : processFrame s f.pred f.lms f.now with
    | error e => rw [hpf] at h1; simp at h1
    | ok p =>
      obtain ⟨s', ev⟩ := p
      rw [hpf] at h1
      dsimp only at h1 ⊢
      cases hrun : runFrames s' fs with
      | error e => rw [hrun] at h1; simp at h1
      | ok q =>
        obtain ⟨s'', evs⟩ := q
        rw [hrun] at h1
        simp only [Except.ok.injEq, Prod.mk.injEq] at h1
        obtain ⟨rfl, rfl⟩ := h1
        rw [ih s' evs hrun]
        rfl

-- ──────────────────────────────────────────────
-- Single-frame scenario steps (cooldown inactive)
-- ──────────────────────────────────────────────

/-- Feeding a gated frame while the buffer stays strictly below the
window size: the sample is appended and no event fires. -/
lemma step_grow (s : EngineState) (f : Frame) (l : String)
    (hcd : s.inCooldown = false) (hf : okFrame f l)
    (hlen : s.stabilityBuffer.length + 1 < STABILITY_FRAMES) :
    processFrame s f.pred f.lms f.now =
      .ok ({ s with stabilityBuffer := s.stabilityBuffer ++ [sampleOf l f] },
        none) := by
  rw [processFrame_idle s f l hcd hf, updateStabilityBuffer_eq,
    pushBound_small _ _ (by omega),
    stableCheck_short _ (by simp; omega)]
  rfl

/-- The accepting frame: the buffer holds `W - 1` agreeing samples, the
new frame agrees, and the stable label differs from `acceptedGesture`. -/
lemma step_accept (s : EngineState) (f : Frame) (l : String)
    (hcd : s.inCooldown = false) (hf : okFrame f l)
    (hlen : s.stabilityBuffer.length + 1 = STABILITY_FRAMES)
    (hall : ∀ p ∈ s.stabilityBuffer, p.label = l)
    (hacc : s.acceptedGesture ≠ some l) :
    processFrame s f.pred f.lms f.now =
      .ok (acceptState l f.now, some (acceptEvent l)) := by
  rw [processFrame_idle s f l hcd hf, updateStabilityBuffer_eq,
    pushBound_small _ _ (by omega),
    stableCheck_all _ l (by simp; omega) ?hall]
  case hall =>
    intro p hp
    rcases List.mem_append.1 hp with h | h
    · exact hall p h
    · simp only [List.mem_singleton] at h
      rw [h]
  dsimp only
  rw [if_pos (by simpa using Ne.symm hacc)]
  rfl

/-- A frame whose gated label agrees with the full buffer while the same
label is already the accepted gesture: stable, but no event, and the
buffer is NOT cleared. -/
lemma step_held (s : EngineState) (f : Frame) (l : String)
    (hcd : s.inCooldown = false) (hf : okFrame f l)
    (hlen : s.stabilityBuffer.length + 1 = STABILITY_FRAMES)
    (hall : ∀ p ∈ s.stabilityBuffer, p.label = l)
    (hacc : s.acceptedGesture = some l) :
    processFrame s f.pred f.lms f.now =
      .ok ({ s with stabilityBuffer := s.stabilityBuffer ++ [sampleOf l f] },
        none) := by
  rw [processFrame_idle s f l hcd hf, updateStabilityBuffer_eq,
    pushBound_small _ _ (by omega),
    stableCheck_all _ l (by simp; omega) ?hall]
  case hall =>
    intro p hp
    rcases List.mem_append.1 hp with h | h
    · exact hall p h
    · simp only [List.mem_singleton] at h
      rw [h]
  dsimp only
  rw [if_neg (by simp [hacc])]
  rfl

/-- The spoiling frame: the buffer fills up to the window size but the
head sample's label disagrees with the new gated label, so no event. -/
lemma step_mismatch (s : EngineState) (f : Frame) (l' : String)
    (p0 : StabilitySample)
    (hcd : s.inCooldown = false) (hf : okFrame f l')
    (hlen : s.stabilityBuffer.length + 1 ≤ STABILITY_FRAMES)
    (hhead : p0 ∈ s.stabilityBuffer) (hne : p0.label ≠ l') :
    processFrame s f.pred f.lms f.now =
      .ok ({ s with stabilityBuffer := s.stabilityBuffer ++ [sampleOf l' f] },
        none) := by
  rw [processFrame_idle s f l' hcd hf, updateStabilityBuffer_eq,
    pushBound_small _ _ (by omega),
    stableCheck_mixed _ p0 ⟨l', f.pred.confidence, f.now⟩
      (List.mem_append_left _ hhead)
      (List.mem_append_right _ (List.mem_singleton_self _)) hne]
  rfl

/-- Feeding a gated frame into an already-full buffer that still holds a
sample with a different label: FIFO eviction, no event. -/
lemma step_roll (s : EngineState) (f : Frame) (m : String)
    (q : StabilitySample)
    (hcd : s.inCooldown = false) (hf : okFrame f m)
    (hlen : s.stabilityBuffer.length = STABILITY_FRAMES)
    (hq : q ∈ s.stabilityBuffer.tail) (hqm : q.label ≠ m) :
    processFrame s f.pred f.lms f.now =
      .ok ({ s with stabilityBuffer :=
          s.stabilityBuffer.tail ++ [sampleOf m f] }, none) := by
  rw [processFrame_idle s f m hcd hf, updateStabilityBuffer_eq,
    pushBound_full _ _ hlen,
    stableCheck_mixed _ q ⟨m, f.pred.confidence, f.now⟩
      (List.mem_append_left _ hq)
      (List.mem_append_right _ (List.mem_singleton_self _)) hqm]
  rfl

/-- Feeding a gated frame into a full buffer whose tail already agrees
with the new label: the oldest sample is evicted, the window agrees, and
the new label is accepted. -/
lemma step_roll_accept (s : EngineState) (f : Frame) (m : String)
    (hcd : s.inCooldown = false) (hf : okFrame f m)
    (hlen : s.stabilityBuffer.length = STABILITY_FRAMES)
    (hall : ∀ p ∈ s.stabilityBuffer.tail, p.label = m)
    (hacc : s.acceptedGesture ≠ some m) :
    processFrame s f.pred f.lms f.now =
      .ok (acceptState m f.now, some (acceptEvent m)) := by
  rw [processFrame_idle s f m hcd hf, updateStabilityBuffer_eq,
    pushBound_full _ _ hlen,
    stableCheck_all _ m ?len ?hall]
  case len =>
    have : s.stabilityBuffer.tail.length = STABILITY_FRAMES - 1 := by
      rw [List.length_tail, hlen]
    simp [this, STABILITY_FRAMES]
  case hall =>
    intro p hp
    rcases List.mem_append.1 hp with h | h
    · exact hall p h
    · simp only [List.mem_singleton] at h
      rw [h]
  dsimp only
  rw [if_pos (by simpa using Ne.symm hacc)]
  rfl

-- ──────────────────────────────────────────────
-- Multi-frame runs
-- ──────────────────────────────────────────────

/-- Feeding agreeing gated frames that keep the buffer strictly below the
window size: every call returns no event and the samples accumulate. -/
lemma feedAgreeRun (frames : List Frame) :
    ∀ (s : EngineState) (l : String), s.inCooldown = false →
    (∀ f ∈ frames, okFrame f l) →
    s.stabilityBuffer.length + frames.length < STABILITY_FRAMES →
    runFrames s frames =
      .ok ({ s with stabilityBuffer :=
          s.stabilityBuffer ++ frames.map (sampleOf l) },
        List.replicate frames.length none) := by
  induction frames with
  | nil =>
    intro s l hcd hok hlen
    simp [runFrames_nil]
  | cons f fs ih =>
    intro s l hcd hok hlen
    simp only [List.length_cons] at hlen
    rw [runFrames_cons_ok s _ none f fs
      (step_grow s f l hcd (hok f (List.mem_cons_self _ _)) (by omega))]
    rw [ih { s with stabilityBuffer := s.stabilityBuffer ++ [sampleOf l f] } l
      hcd (fun g hg => hok g (List.mem_cons_of_mem _ hg))
      (by simp only [List.length_append, List.length_cons, List.length_nil]
          omega)]
    dsimp only
    simp [List.append_assoc, List.replicate_succ]

/-- Feeding the frames that complete a stabilization cycle: the agreeing
prefix fills the buffer, and the final agreeing frame (with the stable
label differing from `acceptedGesture`) fires exactly one acceptance. -/
lemma feedToAccept (fs : List Frame) (fl : Frame) (s : EngineState)
    (l : String)
    (hcd : s.inCooldown = false) (hacc : s.acceptedGesture ≠ some l)
    (hall : ∀ p ∈ s.stabilityBuffer, p.label = l)
    (hlen : s.stabilityBuffer.length + fs.length + 1 = STABILITY_FRAMES)
    (hfs : ∀ f ∈ fs, okFrame f l) (hfl : okFrame fl l) :
    runFrames s (fs ++ [fl]) =
      .ok (acceptState l fl.now,
        List.replicate fs.length none ++ [some (acceptEvent l)]) := by
  have h1 := feedAgreeRun fs s l hcd hfs (by omega)
  have h2 : processFrame
      { s with stabilityBuffer := s.stabilityBuffer ++ fs.map (sampleOf l) }
      fl.pred fl.lms fl.now =
      .ok (acceptState l fl.now, some (acceptEvent l)) := by
    refine step_accept
      { s with stabilityBuffer := s.stabilityBuffer ++ fs.map (sampleOf l) }
      fl l hcd hfl ?_ ?_ hacc
    · simp only [List.length_append, List.length_map]
      omega
    · intro p hp
      rcases List.mem_append.1 hp with h | h
      · exact hall p h
      · obtain ⟨g, _, hg⟩ := List.mem_map.1 h
        rw [← hg]
        rfl
  have h3 : runFrames
      { s with stabilityBuffer := s.stabilityBuffer ++ fs.map (sampleOf l) }
      [fl] = .ok (acceptState l fl.now, [some (acceptEvent l)]) := by
    rw [runFrames_cons_ok _ _ _ fl [] h2]
    rfl
  exact runFrames_append _ _ _ _ _ _ _ h1 h3

/-- Feeding agreeing gated frames into a full buffer that still starts
with differently-labelled stale samples: FIFO eviction, no events. -/
lemma feedRoll (frames : List Frame) :
    ∀ (olds news : List StabilitySample) (s : EngineState) (l m : String),
    s.inCooldown = false →
    s.stabilityBuffer = olds ++ news →
    (olds ++ news).length = STABILITY_FRAMES →
    (∀ p ∈ olds, p.label = l) → (∀ p ∈ news, p.label = m) → l ≠ m →
    (∀ f ∈ frames, okFrame f m) →
    frames.length < olds.length →
    runFrames s frames =
      .ok ({ s with stabilityBuffer :=
          (olds.drop frames.length) ++ news ++ frames.map (sampleOf m) },
        List.replicate frames.length none) := by
  induction frames with
  | nil =>
    intro olds news s l m hcd hbuf hlen8 holds hnews hlm hok hcount
    rw [runFrames_nil]
    simp [← hbuf]
  | cons f fs ih =>
    intro olds news s l m hcd hbuf hlen8 holds hnews hlm hok hcount
    simp only [List.length_cons] at hcount
    obtain ⟨o0, otl, rfl⟩ := List.exists_cons_of_ne_nil
      (show olds ≠ [] by intro hnil; rw [hnil] at hcount; simp at hcount)
    simp only [List.length_cons] at hcount
    have hotl : otl ≠ [] := by
      intro hnil
      rw [hnil] at hcount
      simp at hcount
    obtain ⟨q0, qtl, hq⟩ := List.exists_cons_of_ne_nil hotl
    have hq0mem : q0 ∈ otl := by
      rw [hq]
      exact List.mem_cons_self _ _
    have hq0lab : q0.label = l := holds q0 (List.mem_cons_of_mem _ hq0mem)
    have hstep := step_roll s f m q0 hcd (hok f (List.mem_cons_self _ _))
      (by rw [hbuf]; exact hlen8)
      (by rw [hbuf]
          simp only [List.cons_append, List.tail_cons]
          exact List.mem_append_left _ hq0mem)
      (by rw [hq0lab]; exact hlm)
    rw [runFrames_cons_ok s _ none f fs hstep]
    rw [ih otl (news ++ [sampleOf m f])
      { s with stabilityBuffer := s.stabilityBuffer.tail ++ [sampleOf m f] }
      l m hcd
      (by show s.stabilityBuffer.tail ++ [sampleOf m f] = _
          rw [hbuf]
          simp [List.cons_append, List.tail_cons, List.append_assoc])
      (by have h8 := hlen8
          simp only [List.length_append, List.length_cons, List.length_nil]
            at h8 ⊢
          omega)
      (fun p hp => holds p (List.mem_cons_of_mem _ hp))
      (by intro p hp
          rcases List.mem_append.1 hp with h | h
          · exact hnews p h
          · simp only [List.mem_singleton] at h
            rw [h]
            rfl)
      hlm (fun g hg => hok g (List.mem_cons_of_mem _ hg)) (by omega)]
    dsimp only
    simp [List.drop_succ_cons, List.append_assoc, List.replicate_succ,
      List.singleton_append, List.cons_append]

-- ──────────────────────────────────────────────
-- Reachable states
-- ──────────────────────────────────────────────

/-- The engine state that results from a call, whether it returned
normally or threw. -/
def stateOf (r : Except EngineState (EngineState × Option GestureEvent)) :
    EngineState :=
  match r with
  | .ok (s, _) => s
  | .error s => s

/-- The cooldown condition recomputed purely from the acceptance
timestamp and the current time: a gesture has been accepted (nonzero
timestamp) and less than `GESTURE_COOLDOWN_MS` have elapsed. -/
def pureCooldown (acceptedTimestamp now : ℤ) : Bool :=
  decide (acceptedTimestamp ≠ 0) &&
    decide (now - acceptedTimestamp < GESTURE_COOLDOWN_MS)

/-- `Reachable s t`: the engine, started from the constructor state, can
be in state `s` with every call so far performed no later than time `t`.
Calls happen at positive, nondecreasing `Date.now()` values. -/
inductive Reachable : EngineState → ℤ → Prop where
  | init : Reachable initState 0
  | tick {s : EngineState} {t t' : ℤ} :
      Reachable s t → t ≤ t' → Reachable s t'
  | frame_ok {s s' : EngineState} {t t' : ℤ} {pred : MLPrediction}
      {lms : List Landmark} {ev : Option GestureEvent} :
      Reachable s t → t ≤ t' → 0 < t' →
      processFrame s pred lms t' = .ok (s', ev) → Reachable s' t'
  | frame_err {s s' : EngineState} {t t' : ℤ} {pred : MLPrediction}
      {lms : List Landmark} :
      Reachable s t → t ≤ t' → 0 < t' →
      processFrame s pred lms t' = .error s' → Reachable s' t'
  | reset_step {s : EngineState} {t t' : ℤ} :
      Reachable s t → t ≤ t' → Reachable (reset s) t'
  | hand_lost {s : EngineState} {t t' : ℤ} :
      Reachable s t → t ≤ t' → Reachable (onHandDisappear s) t'

/-- Case analysis of `_isInCooldown`. -/
lemma isInCooldown_shape (s : EngineState) (now : ℤ) :
    isInCooldown s now = (true, s) ∨
    isInCooldown s now = (false, s) ∨
    (isInCooldown s now = (false, { s with inCooldown := false }) ∧
      s.inCooldown = true ∧ s.acceptedTimestamp ≠ 0 ∧
      GESTURE_COOLDOWN_MS ≤ now - s.acceptedTimestamp) := by
  unfold isInCooldown
  split
  case isTrue => right; left; rfl
  case isFalse hcond =>
    push_neg at hcond
    split
    case isTrue => left; rfl
    case isFalse hlt =>
      right; right
      exact ⟨rfl, Bool.not_eq_false _ ▸ hcond.1, hcond.2, not_lt.1 hlt⟩

/-- Case analysis of the cooldown flag and acceptance timestamp across a
single `processFrame` call (normal return or throw alike): either both
are untouched, or the flag was lazily cleared on cooldown expiry, or a
new acceptance set the flag with timestamp `now`. -/
lemma processFrame_flag_shape (s : EngineState) (pred : MLPrediction)
    (lms : List Landmark) (now : ℤ) :
    ((stateOf (processFrame s pred lms now)).inCooldown = s.inCooldown ∧
      (stateOf (processFrame s pred lms now)).acceptedTimestamp =
        s.acceptedTimestamp) ∨
    ((stateOf (processFrame s pred lms now)).inCooldown = false ∧
      (stateOf (processFrame s pred lms now)).acceptedTimestamp =
        s.acceptedTimestamp ∧
      s.acceptedTimestamp ≠ 0 ∧
      GESTURE_COOLDOWN_MS ≤ now - s.acceptedTimestamp) ∨
    ((stateOf (processFrame s pred lms now)).inCooldown = true ∧
      (stateOf (processFrame s pred lms now)).acceptedTimestamp = now) := by
  by_cases hs : pred.label = "" ∨ pred.label = "NONE"
  · rw [processFrame_sentinel s pred lms now hs]
    left
    exact ⟨rfl, rfl⟩
  · unfold processFrame
    rw [if_neg hs]
    rcases isInCooldown_shape s now with h | h | ⟨h, h1, h2, h3⟩
    · rw [h]
      left
      exact ⟨rfl, rfl⟩
    · rw [h]
      dsimp only
      cases hg : applyDecisionGates pred.label pred.confidence lms with
      | none =>
        left
        exact ⟨rfl, rfl⟩
      | some g =>
        dsimp only
        rw [updateStabilityBuffer_eq]
        cases hst : stableCheck (pushBound s.stabilityBuffer
            ⟨g, pred.confidence, now⟩) with
        | none =>
          left
          exact ⟨rfl, rfl⟩
        | some st =>
          dsimp only
          split
          · right; right
            exact ⟨rfl, rfl⟩
          · left
            exact ⟨rfl, rfl⟩
    · rw [h]
      dsimp only
      cases hg : applyDecisionGates pred.label pred.confidence lms with
      | none =>
        right; left
        exact ⟨rfl, rfl, h2, h3⟩
      | some g =>
        dsimp only
        rw [updateStabilityBuffer_eq]
        cases hst : stableCheck (pushBound
            ({ s with inCooldown := false } : EngineState).stabilityBuffer
            ⟨g, pred.confidence, now⟩) with
        | none =>
          right; left
          exact ⟨rfl, rfl, h2, h3⟩
        | some st =>
          dsimp only
          split
          · right; right
            exact ⟨rfl, rfl⟩
          · right; left
            exact ⟨rfl, rfl, h2, h3⟩

/-- Case analysis of the stability buffer across a single `processFrame`
call: untouched, cleared by an acceptance, or push-and-trim. -/
lemma processFrame_buffer_shape (s : EngineState) (pred : MLPrediction)
    (lms : List Landmark) (now : ℤ) :
    (stateOf (processFrame s pred lms now)).stabilityBuffer =
      s.stabilityBuffer ∨
    (stateOf (processFrame s pred lms now)).stabilityBuffer = [] ∨
    ∃ x, (stateOf (processFrame s pred lms now)).stabilityBuffer =
      pushBound s.stabilityBuffer x := by
  by_cases hs : pred.label = "" ∨ pred.label = "NONE"
  · rw [processFrame_sentinel s pred lms now hs]
    left
    rfl
  · unfold processFrame
    rw [if_neg hs]
    rcases isInCooldown_shape s now with h | h | ⟨h, h1, h2, h3⟩
    · rw [h]
      left
      rfl
    · rw [h]
      dsimp only
      cases hg : applyDecisionGates pred.label pred.confidence lms with
      | none =>
        left
        rfl
      | some g =>
        dsimp only
        rw [updateStabilityBuffer_eq]
        cases hst : stableCheck (pushBound s.stabilityBuffer
            ⟨g, pred.confidence, now⟩) with
        | none =>
          right; right
          exact ⟨_, rfl⟩
        | some st =>
          dsimp only
          split
          · right; left
            rfl
          · right; right
            exact ⟨_, rfl⟩
    · rw [h]
      dsimp only
      cases hg : applyDecisionGates pred.label pred.confidence lms with
      | none =>
        left
        rfl
      | some g =>
        dsimp only
        rw [updateStabilityBuffer_eq]
        cases hst : stableCheck (pushBound
            ({ s with inCooldown := false } : EngineState).stabilityBuffer
            ⟨g, pred.confidence, now⟩) with
        | none =>
          right; right
          exact ⟨_, rfl⟩
        | some st =>
          dsimp only
          split
          · right; left
            rfl
          · right; right
            exact ⟨_, rfl⟩

lemma pushBound_length_le (buf : List StabilitySample) (x : StabilitySample)
    (h : buf.length ≤ STABILITY_FRAMES) :
    (pushBound buf x).length ≤ STABILITY_FRAMES := by
  simp only [pushBound]
  split
  case isTrue hc =>
    simp only [List.length_tail, List.length_append, List.length_cons,
      List.length_nil]
    omega
  case isFalse hc =>
    simp only [List.length_append, List.length_cons, List.length_nil] at hc ⊢
    omega

/-- The cooldown bookkeeping invariant that holds in every reachable
state: the flag implies a recorded acceptance, and a cleared flag with a
recorded acceptance implies the cooldown window has fully elapsed. -/
lemma reachable_cooldown_inv {s : EngineState} {t : ℤ}
    (h : Reachable s t) :
    (s.inCooldown = true → s.acceptedTimestamp ≠ 0) ∧
    (s.inCooldown = false → s.acceptedTimestamp ≠ 0 →
      GESTURE_COOLDOWN_MS ≤ t - s.acceptedTimestamp) := by
  induction h with
  | init =>
    refine ⟨fun hf => ?_, fun _ hts => ?_⟩
    · simp [initState] at hf
    · simp [initState] at hts
  | tick hr hle ih =>
    refine ⟨ih.1, fun hf hts => ?_⟩
    have := ih.2 hf hts
    omega
  | frame_ok hr hle hpos hpf ih =>
    rename_i s s' t t' pred lms ev
    have hshape := processFrame_flag_shape s pred lms t'
    rw [hpf] at hshape
    simp only [stateOf] at hshape
    rcases hshape with ⟨hf, hts⟩ | ⟨hf, hts, hne, hel⟩ | ⟨hf, hts⟩
    · refine ⟨fun hflag => ?_, fun hflag hne => ?_⟩
      · rw [hts]
        exact ih.1 (hf ▸ hflag)
      · rw [hts]
        have := ih.2 (hf ▸ hflag) (hts ▸ hne)
        omega
    · refine ⟨fun hflag => ?_, fun _ _ => ?_⟩
      · rw [hflag] at hf
        simp at hf
      · rw [hts]
        exact hel
    · refine ⟨fun _ => ?_, fun hflag _ => ?_⟩
      · rw [hts]
        omega
      · rw [hflag] at hf
        simp at hf
  | frame_err hr hle hpos hpf ih =>
    rename_i s s' t t' pred lms
    have hshape := processFrame_flag_shape s pred lms t'
    rw [hpf] at hshape
    simp only [stateOf] at hshape
    rcases hshape with ⟨hf, hts⟩ | ⟨hf, hts, hne, hel⟩ | ⟨hf, hts⟩
    · refine ⟨fun hflag => ?_, fun hflag hne => ?_⟩
      · rw [hts]
        exact ih.1 (hf ▸ hflag)
      · rw [hts]
        have := ih.2 (hf ▸ hflag) (hts ▸ hne)
        omega
    · refine ⟨fun hflag => ?_, fun _ _ => ?_⟩
      · rw [hflag] at hf
        simp at hf
      · rw [hts]
        exact hel
    · refine ⟨fun _ => ?_, fun hflag _ => ?_⟩
      · rw [hts]
        omega
      · rw [hflag] at hf
        simp at hf
  | reset_step hr hle ih =>
    refine ⟨fun hf => ?_, fun _ hts => ?_⟩
    · simp [reset] at hf
    · simp [reset] at hts
  | hand_lost hr hle ih =>
    refine ⟨fun hf => ?_, fun _ hts => ?_⟩
    · simp [onHandDisappear, reset] at hf
    · simp [onHandDisappear, reset] at hts

-- ──────────────────────────────────────────────
-- Acceptance inversion and cooldown scenarios
-- ──────────────────────────────────────────────

/-- Whenever `processFrame` emits an event, the resulting state has the
lock engaged and the acceptance timestamp set to the call time. -/
lemma processFrame_accept_inv (s s' : EngineState) (pred : MLPrediction)
    (lms : List Landmark) (now : ℤ) (ev : GestureEvent)
    (h : processFrame s pred lms now = .ok (s', some ev)) :
    s'.inCooldown = true ∧ s'.acceptedTimestamp = now := by
  by_cases hs : pred.label = "" ∨ pred.label = "NONE"
  · rw [processFrame_sentinel s pred lms now hs] at h
    simp at h
  · unfold processFrame at h
    rw [if_neg hs] at h
    rcases isInCooldown_shape s now with hc | hc | ⟨hc, _, _, _⟩ <;>
        rw [hc] at h <;> dsimp only at h
    · simp at h
    · cases hg : applyDecisionGates pred.label pred.confidence lms with
      | none =>
        rw [hg] at h
        simp at h
      | some g =>
        rw [hg] at h
        dsimp only at h
        rw [updateStabilityBuffer_eq] at h
        cases hst : stableCheck (pushBound s.stabilityBuffer
            ⟨g, pred.confidence, now⟩) with
        | none =>
          rw [hst] at h
          simp at h
        | some st =>
          rw [hst] at h
          dsimp only at h
          split at h
          · simp only [Except.ok.injEq, Prod.mk.injEq, Option.some.injEq] at h
            rw [← h.1]
            exact ⟨rfl, rfl⟩
          · simp at h
    · cases hg : applyDecisionGates pred.label pred.confidence lms with
      | none =>
        rw [hg] at h
        simp at h
      | some g =>
        rw [hg] at h
        dsimp only at h
        rw [updateStabilityBuffer_eq] at h
        cases hst : stableCheck (pushBound
            ({ s with inCooldown := false } : EngineState).stabilityBuffer
            ⟨g, pred.confidence, now⟩) with
        | none =>
          rw [hst] at h
          simp at h
        | some st =>
          rw [hst] at h
          dsimp only at h
          split at h
          · simp only [Except.ok.injEq, Prod.mk.injEq, Option.some.injEq] at h
            rw [← h.1]
            exact ⟨rfl, rfl⟩
          · simp at h

/-- While the lock is engaged with a live cooldown window, any sequence
of frames is ignored without touching the state. -/
lemma lockedRun (gs : List Frame) :
    ∀ (s : EngineState), s.inCooldown = true → s.acceptedTimestamp ≠ 0 →
    (∀ g ∈ gs, g.now - s.acceptedTimestamp < GESTURE_COOLDOWN_MS) →
    runFrames s gs = .ok (s, List.replicate gs.length none) := by
  induction gs with
  | nil =>
    intro s _ _ _
    rw [runFrames_nil]
    rfl
  | cons g gs ih =>
    intro s h1 h2 h3
    have hstep : processFrame s g.pred g.lms g.now = .ok (s, none) := by
      by_cases hlab : g.pred.label = "" ∨ g.pred.label = "NONE"
      · exact processFrame_sentinel s g.pred g.lms g.now hlab
      · push_neg at hlab
        exact processFrame_locked s g.pred g.lms g.now hlab.1 hlab.2 h1 h2
          (h3 g (List.mem_cons_self _ _))
    rw [runFrames_cons_ok s s none g gs hstep,
      ih s h1 h2 (fun g' hg' => h3 g' (List.mem_cons_of_mem _ hg'))]
    rfl

/-- After the cooldown window has elapsed, a full window of frames whose
gated label equals the still-accepted gesture produces no event but
fills the buffer with those samples (it is NOT cleared). -/
lemma postExpiryHold (l : String) (t : ℤ) (f1 rl : Frame)
    (rest : List Frame)
    (ht : t ≠ 0) (hf1 : okFrame f1 l) (hrest : ∀ f ∈ rest, okFrame f l)
    (hrl : okFrame rl l) (hlen : rest.length + 2 = STABILITY_FRAMES)
    (hexp : ¬ f1.now - t < GESTURE_COOLDOWN_MS) :
    runFrames (acceptState l t) (f1 :: (rest ++ [rl])) =
      .ok ({ stabilityBuffer := (f1 :: (rest ++ [rl])).map (sampleOf l)
             acceptedGesture := some l
             acceptedTimestamp := t
             inCooldown := false },
        List.replicate STABILITY_FRAMES none) := by
  have hstep1 : processFrame (acceptState l t) f1.pred f1.lms f1.now =
      .ok ({ stabilityBuffer := [sampleOf l f1]
             acceptedGesture := some l
             acceptedTimestamp := t
             inCooldown := false }, none) := by
    rw [processFrame_expiry (acceptState l t) f1 hf1.1 hf1.2.1 rfl ht hexp]
    exact step_grow { acceptState l t with inCooldown := false } f1 l rfl hf1
      (by simp [acceptState, STABILITY_FRAMES])
  have hrun2 := feedAgreeRun rest
    { stabilityBuffer := [sampleOf l f1]
      acceptedGesture := some l
      acceptedTimestamp := t
      inCooldown := false } l rfl hrest
    (by simp only [List.length_cons, List.length_nil]; omega)
  have hstep3 : processFrame
      { stabilityBuffer := [sampleOf l f1] ++ rest.map (sampleOf l)
        acceptedGesture := some l
        acceptedTimestamp := t
        inCooldown := false } rl.pred rl.lms rl.now =
      .ok ({ stabilityBuffer :=
              ([sampleOf l f1] ++ rest.map (sampleOf l)) ++ [sampleOf l rl]
             acceptedGesture := some l
             acceptedTimestamp := t
             inCooldown := false }, none) := by
    apply step_held _ rl l rfl hrl
    · simp only [List.length_append, List.length_map, List.length_cons,
        List.length_nil]
      omega
    · intro p hp
      rcases List.mem_append.1 hp with hmem | hmem
      · simp only [List.mem_singleton] at hmem
        rw [hmem]
        rfl
      · obtain ⟨g, _, hg⟩ := List.mem_map.1 hmem
        rw [← hg]
        rfl
    · rfl
  have hrun3 : runFrames
      { stabilityBuffer := [sampleOf l f1] ++ rest.map (sampleOf l)
        acceptedGesture := some l
        acceptedTimestamp := t
        inCooldown := false } [rl] =
      .ok ({ stabilityBuffer :=
              ([sampleOf l f1] ++ rest.map (sampleOf l)) ++ [sampleOf l rl]
             acceptedGesture := some l
             acceptedTimestamp := t
             inCooldown := false }, [none]) := by
    rw [runFrames_cons_ok _ _ _ rl [] hstep3]
    rfl
  have hrun23 := runFrames_append _ _ _ rest [rl] _ _ hrun2 hrun3
  have := runFrames_append _ _ _ [f1] (rest ++ [rl]) [none] _
    (by rw [runFrames_cons_ok _ _ _ f1 [] hstep1]; rfl) hrun23
  rw [List.singleton_append] at this
  rw [this]
  simp only [Except.ok.injEq, Prod.mk.injEq]
  constructor
  · simp [List.map_cons, List.map_append, List.append_assoc]
  · rw [List.eq_replicate_iff]
    constructor
    · simp only [List.length_append, List.length_replicate, List.length_cons,
        List.length_nil]
      omega
    · intro b hb
      simp only [List.mem_append, List.mem_singleton, List.mem_replicate]
        at hb
      rcases hb with hb | hb | hb
      · exact hb
      · exact hb.2
      · exact hb

/-- A full buffer of stale same-label samples does not block a differing
gesture: a full window of its frames rolls the stale samples out and the
final frame is accepted. -/
lemma rollThenAccept (s : EngineState) (l m : String) (gs : List Frame)
    (gl : Frame)
    (hml : m ≠ l) (hcd : s.inCooldown = false)
    (hacc : s.acceptedGesture ≠ some m)
    (hlen : s.stabilityBuffer.length = STABILITY_FRAMES)
    (hall : ∀ p ∈ s.stabilityBuffer, p.label = l)
    (hgs : ∀ g ∈ gs, okFrame g m) (hgl : okFrame gl m)
    (hcount : gs.length + 1 = STABILITY_FRAMES) :
    runFrames s (gs ++ [gl]) =
      .ok (acceptState m gl.now,
        List.replicate gs.length none ++ [some (acceptEvent m)]) := by
  have hroll := feedRoll gs s.stabilityBuffer [] s l m hcd (by simp)
    (by simpa using hlen) hall (by simp) (fun hEq => hml hEq.symm) hgs
    (by omega)
  obtain ⟨a, ha⟩ := List.length_eq_one.1
    (show (s.stabilityBuffer.drop gs.length).length = 1 by
      simp only [List.length_drop]
      omega)
  have hstep : processFrame
      { s with stabilityBuffer :=
          (s.stabilityBuffer.drop gs.length) ++ [] ++ gs.map (sampleOf m) }
      gl.pred gl.lms gl.now =
      .ok (acceptState m gl.now, some (acceptEvent m)) := by
    apply step_roll_accept
      { s with stabilityBuffer :=
          (s.stabilityBuffer.drop gs.length) ++ [] ++ gs.map (sampleOf m) }
      gl m hcd hgl
    · simp only [List.length_append, List.length_map, List.length_drop,
        List.length_nil]
      omega
    · intro p hp
      rw [ha] at hp
      simp only [List.append_nil, List.singleton_append, List.tail_cons] at hp
      obtain ⟨g, _, hg⟩ := List.mem_map.1 hp
      rw [← hg]
      rfl
    · exact hacc
  have hrunlast : runFrames
      { s with stabilityBuffer :=
          (s.stabilityBuffer.drop gs.length) ++ [] ++ gs.map (sampleOf m) }
      [gl] = .ok (acceptState m gl.now, [some (acceptEvent m)]) := by
    rw [runFrames_cons_ok _ _ _ gl [] hstep]
    rfl
  exact runFrames_append _ _ _ gs [gl] _ _ hroll hrunlast

-- ──────────────────────────────────────────────
-- Claim theorems
-- ──────────────────────────────────────────────

/-- Claim C9: calling `onHandLost()`/`reset()` any number of consecutive
times yields a state identical to calling it once; the resulting state
has an empty stability buffer, no accepted gesture, and the cooldown
inactive. -/
theorem c9_reset_idempotent :
    ∀ (n : ℕ) (s : EngineState) (now : ℤ),
      reset^[n + 1] s = reset s ∧
      onHandDisappear^[n + 1] s = reset s ∧
      (reset s).stabilityBuffer = [] ∧
      (reset s).acceptedGesture = none ∧
      (reset s).inCooldown = false ∧
      (isInCooldown (reset s) now).1 = false := by
  intro n s now
  refine ⟨?_, ?_, rfl, rfl, rfl, rfl⟩
  · rw [Function.iterate_succ_apply']
    rfl
  · rw [Function.iterate_succ_apply']
    rfl

/-- Claim C10: in every reachable engine state (every sequence of
`processFrame` calls with arbitrary inputs, `reset` and `onHandLost`
calls, starting from the freshly constructed engine) the stability
buffer holds at most `STABILITY_FRAMES = 8` samples. -/
theorem c10_buffer_bounded {s : EngineState} {t : ℤ}
    (h : Reachable s t) : s.stabilityBuffer.length ≤ STABILITY_FRAMES := by
  induction h with
  | init => simp [initState]
  | tick hr hle ih => exact ih
  | frame_ok hr hle hpos hpf ih =>
    rename_i s s' t t' pred lms ev
    have hshape := processFrame_buffer_shape s pred lms t'
    rw [hpf] at hshape
    simp only [stateOf] at hshape
    rcases hshape with hb | hb | ⟨x, hb⟩
    · rw [hb]
      exact ih
    · rw [hb]
      simp
    · rw [hb]
      exact pushBound_length_le _ _ ih
  | frame_err hr hle hpos hpf ih =>
    rename_i s s' t t' pred lms
    have hshape := processFrame_buffer_shape s pred lms t'
    rw [hpf] at hshape
    simp only [stateOf] at hshape
    rcases hshape with hb | hb | ⟨x, hb⟩
    · rw [hb]
      exact ih
    · rw [hb]
      simp
    · rw [hb]
      exact pushBound_length_le _ _ ih
  | reset_step hr hle ih => simp [reset]
  | hand_lost hr hle ih => simp [onHandDisappear, reset]

/-- Witness for C10 at the initial state, reachable by construction. -/
theorem c10_witness : initState.stabilityBuffer.length ≤ STABILITY_FRAMES :=
  c10_buffer_bounded Reachable.init

/-- Claim C8: in every reachable engine state the cooldown condition the
engine consults (`_isInCooldown`, the recomputation of the cached
`inCooldown` flag) equals the pure function of the acceptance timestamp
and the current time: a gesture was accepted (nonzero timestamp) and
less than `GESTURE_COOLDOWN_MS` have elapsed. -/
theorem c8_cooldown_recomputable {s : EngineState} {now : ℤ}
    (h : Reachable s now) :
    (isInCooldown s now).1 = pureCooldown s.acceptedTimestamp now := by
  obtain ⟨inv1, inv2⟩ := reachable_cooldown_inv h
  unfold isInCooldown pureCooldown
  cases hflag : s.inCooldown with
  | false =>
    rw [if_pos (Or.inl rfl)]
    by_cases hts : s.acceptedTimestamp = 0
    · simp [hts]
    · have hle := inv2 hflag hts
      have hlt : ¬ now - s.acceptedTimestamp < GESTURE_COOLDOWN_MS :=
        not_lt.2 hle
      simp [hts, hlt]
  | true =>
    have hts := inv1 hflag
    rw [if_neg (by simp [hts])]
    by_cases hlt : now - s.acceptedTimestamp < GESTURE_COOLDOWN_MS
    · rw [if_pos hlt]
      simp [hts, hlt]
    · rw [if_neg hlt]
      simp [hts, hlt]

/-- Witness for C8 at the initial state, reachable by construction. -/
theorem c8_witness :
    (isInCooldown initState 0).1 = pureCooldown initState.acceptedTimestamp 0 :=
  c8_cooldown_recomputable Reachable.init

/-- Claim C5: while the engine is locked (cooldown flag set, acceptance
recorded, window not yet elapsed), every call with a non-sentinel label
returns no event and leaves the state — in particular the stability
buffer — exactly unchanged.  The landmark list is arbitrary (it may even
be malformed and the label THUMBS_UP): the cooldown gate fires before
the geometric gate and before the buffer is touched, so no gate runs and
nothing mutates. -/
theorem c5_locked_frames_ignored (s : EngineState) (pred : MLPrediction)
    (lms : List Landmark) (now : ℤ)
    (h0 : pred.label ≠ "") (h0' : pred.label ≠ "NONE")
    (h1 : s.inCooldown = true) (h2 : s.acceptedTimestamp ≠ 0)
    (h3 : now - s.acceptedTimestamp < GESTURE_COOLDOWN_MS) :
    processFrame s pred lms now = .ok (s, none) :=
  processFrame_locked s pred lms now h0 h0' h1 h2 h3

/-- Witness for C5: a locked engine ignores a THUMBS_UP frame with an
empty (malformed) landmark list. -/
theorem c5_witness :
    processFrame ⟨[], some "OPEN_PALM", 100, true⟩ ⟨"THUMBS_UP", 1, "", ""⟩
        [] 200 = .ok (⟨[], some "OPEN_PALM", 100, true⟩, none) :=
  c5_locked_frames_ignored ⟨[], some "OPEN_PALM", 100, true⟩
    ⟨"THUMBS_UP", 1, "", ""⟩ [] 200 (by decide) (by decide) rfl (by decide)
    (by decide)

/-- Claim C3: for every pose in which the wrist-to-thumb-tip distance
equals exactly `THUMB_DOMINANCE_THRESHOLD` times the maximum wrist-to-
fingertip distance of the four non-thumb fingers, the thumb-dominance
gate resolves to not-dominant (the comparison is a strict `>`), and the
decision gates relabel THUMBS_UP to CLOSED_FIST. -/
theorem c3_thumb_boundary_excluded (lms : List Landmark)
    (wrist thumbTip indexTip middleTip ringTip pinkyTip : Landmark)
    (h0 : lms[LANDMARKS.WRIST]? = some wrist)
    (h4 : lms[LANDMARKS.THUMB_TIP]? = some thumbTip)
    (h8 : lms[LANDMARKS.INDEX_TIP]? = some indexTip)
    (h12 : lms[LANDMARKS.MIDDLE_TIP]? = some middleTip)
    (h16 : lms[LANDMARKS.RING_TIP]? = some ringTip)
    (h20 : lms[LANDMARKS.PINKY_TIP]? = some pinkyTip)
    (confidence : ℝ)
    (hb : computeDistance wrist thumbTip =
      THUMB_DOMINANCE_THRESHOLD *
        max (computeDistance wrist indexTip)
          (max (computeDistance wrist middleTip)
            (max (computeDistance wrist ringTip)
              (computeDistance wrist pinkyTip)))) :
    validateThumbDominance lms = some false ∧
    applyDecisionGates "THUMBS_UP" confidence lms = some "CLOSED_FIST" := by
  have hv : validateThumbDominance lms = some false := by
    unfold validateThumbDominance
    rw [h0, h4, h8, h12, h16, h20]
    dsimp only
    rw [hb]
    simp
  refine ⟨hv, ?_⟩
  unfold applyDecisionGates
  rw [if_pos rfl, hv]
  rfl

/-- Witness for C3: the explicit boundary pose is rejected by the gate
and THUMBS_UP is corrected to CLOSED_FIST. -/
theorem c3_witness :
    validateThumbDominance boundaryPose = some false ∧
    applyDecisionGates "THUMBS_UP" 1 boundaryPose = some "CLOSED_FIST" := by
  have d1 : computeDistance ⟨0, 0, 0⟩ ⟨1, 0, 0⟩ = 1 := by
    unfold computeDistance
    norm_num
  have dT : computeDistance ⟨0, 0, 0⟩ ⟨13 / 10, 0, 0⟩ = 13 / 10 := by
    unfold computeDistance
    norm_num
    rw [show (169 : ℝ) = 13 ^ 2 by norm_num,
      Real.sqrt_sq (by norm_num : (0 : ℝ) ≤ 13),
      show (100 : ℝ) = 10 ^ 2 by norm_num,
      Real.sqrt_sq (by norm_num : (0 : ℝ) ≤ 10)]
  exact c3_thumb_boundary_excluded boundaryPose ⟨0, 0, 0⟩ ⟨13 / 10, 0, 0⟩
    ⟨1, 0, 0⟩ ⟨1, 0, 0⟩ ⟨1, 0, 0⟩ ⟨1, 0, 0⟩ rfl rfl rfl rfl rfl rfl 1
    (by rw [d1, dT, max_self, max_self, max_self, mul_one]
        unfold THUMB_DOMINANCE_THRESHOLD
        norm_num)

/-- Claim C1: from an idle engine with an empty buffer, `W - 1` frames
with one (post-gate) label followed by one frame with a differing
(post-gate) label never produce an event; `W = 8` frames with one
(post-gate) label differing from `acceptedGesture` produce exactly one
acceptance event, on the `W`-th call and never earlier (`none` in the
event list is a no-event call). -/
theorem c1_stability_window :
    (∀ (s : EngineState) (l l' : String) (fs : List Frame) (g : Frame),
      s.stabilityBuffer = [] → s.inCooldown = false →
      fs.length + 1 = STABILITY_FRAMES →
      (∀ f ∈ fs, okFrame f l) → okFrame g l' → l' ≠ l →
      runFrames s (fs ++ [g]) =
        .ok ({ s with stabilityBuffer :=
            (fs.map (sampleOf l)) ++ [sampleOf l' g] },
          List.replicate STABILITY_FRAMES none)) ∧
    (∀ (s : EngineState) (l : String) (fs : List Frame),
      s.stabilityBuffer = [] → s.inCooldown = false →
      s.acceptedGesture ≠ some l →
      fs.length = STABILITY_FRAMES → (∀ f ∈ fs, okFrame f l) →
      ∃ t, runFrames s fs =
        .ok (acceptState l t,
          List.replicate (STABILITY_FRAMES - 1) none ++
            [some (acceptEvent l)])) := by
  constructor
  · intro s l l' fs g hbuf hcd hlen hok hg hne
    have h1 := feedAgreeRun fs s l hcd hok
      (by rw [hbuf]; simp only [List.length_nil]; omega)
    obtain ⟨f0, fs', rfl⟩ := List.exists_cons_of_ne_nil
      (show fs ≠ [] by
        intro h
        rw [h] at hlen
        simp [STABILITY_FRAMES] at hlen)
    have hstep := step_mismatch
      { s with stabilityBuffer :=
          s.stabilityBuffer ++ (f0 :: fs').map (sampleOf l) }
      g l' (sampleOf l f0) hcd hg
      (by simp only [List.length_append, List.length_map, hbuf,
            List.length_nil]
          omega)
      (List.mem_append_right _
        (List.mem_map_of_mem _ (List.mem_cons_self _ _)))
      (Ne.symm hne)
    have hrun2 : runFrames
        { s with stabilityBuffer :=
            s.stabilityBuffer ++ (f0 :: fs').map (sampleOf l) } [g] =
        .ok ({ s with stabilityBuffer :=
            (s.stabilityBuffer ++ (f0 :: fs').map (sampleOf l)) ++
              [sampleOf l' g] }, [none]) := by
      rw [runFrames_cons_ok _ _ _ g [] hstep]
      rfl
    have hfull := runFrames_append _ _ _ (f0 :: fs') [g] _ _ h1 hrun2
    rw [hfull]
    simp only [Except.ok.injEq, Prod.mk.injEq]
    constructor
    · rw [hbuf]
      simp
    · rw [List.eq_replicate_iff]
      constructor
      · simp only [List.length_append, List.length_replicate,
          List.length_cons, List.length_nil]
        simp only [List.length_cons] at hlen
        omega
      · intro b hb
        simp only [List.mem_append, List.mem_singleton, List.mem_replicate]
          at hb
        rcases hb with hb | hb
        · exact hb.2
        · exact hb
  · intro s l fs hbuf hcd hacc hlen hok
    rcases List.eq_nil_or_concat fs with rfl | ⟨fs', fl, hfs⟩
    · simp [STABILITY_FRAMES] at hlen
    rw [List.concat_eq_append] at hfs
    subst hfs
    refine ⟨fl.now, ?_⟩
    have h8 : fs'.length + 1 = STABILITY_FRAMES := by
      simpa using hlen
    have hthis := feedToAccept fs' fl s l hcd hacc
      (by rw [hbuf]; simp)
      (by rw [hbuf]; simp only [List.length_nil]; omega)
      (fun f hf => hok f (List.mem_append_left _ hf))
      (hok fl (List.mem_append_right _ (List.mem_singleton_self _)))
    rw [hthis, show fs'.length = STABILITY_FRAMES - 1 from by omega]

/-- Witness for C1: seven OPEN_PALM frames then one CLOSED_FIST frame
give no event; eight OPEN_PALM frames give the single acceptance on the
eighth call. -/
theorem c1_witness :
    runFrames initState
        (List.replicate 7 (wFrame "OPEN_PALM" 5) ++ [wFrame "CLOSED_FIST" 6]) =
      .ok ({ initState with stabilityBuffer :=
          (List.replicate 7 (wFrame "OPEN_PALM" 5)).map (sampleOf "OPEN_PALM")
            ++ [sampleOf "CLOSED_FIST" (wFrame "CLOSED_FIST" 6)] },
        List.replicate STABILITY_FRAMES none) ∧
    (∃ t, runFrames initState (List.replicate 8 (wFrame "OPEN_PALM" 5)) =
      .ok (acceptState "OPEN_PALM" t,
        List.replicate (STABILITY_FRAMES - 1) none ++
          [some (acceptEvent "OPEN_PALM")])) := by
  constructor
  · exact c1_stability_window.1 initState "OPEN_PALM" "CLOSED_FIST"
      (List.replicate 7 (wFrame "OPEN_PALM" 5)) (wFrame "CLOSED_FIST" 6)
      rfl rfl (by simp [STABILITY_FRAMES])
      (fun f hf => by
        rw [List.eq_of_mem_replicate hf]
        exact ⟨by decide, by decide, rfl⟩)
      ⟨by decide, by decide, rfl⟩ (by decide)
  · exact c1_stability_window.2 initState "OPEN_PALM"
      (List.replicate 8 (wFrame "OPEN_PALM" 5)) rfl rfl (by simp [initState])
      (by simp [STABILITY_FRAMES])
      (fun f hf => by
        rw [List.eq_of_mem_replicate hf]
        exact ⟨by decide, by decide, rfl⟩)

/-- Claim C6: a NONE-sentinel frame returns no event and leaves the
state exactly unchanged wherever it occurs, and a single NONE frame
injected between agreeing frames does not reset stabilization progress:
the `W` agreeing frames (not counting the NONE frame) still produce
exactly one acceptance, on the last of them. -/
theorem c6_none_frame_tolerated :
    (∀ (s : EngineState) (pred : MLPrediction) (lms : List Landmark)
        (now : ℤ), pred.label = "NONE" →
      processFrame s pred lms now = .ok (s, none)) ∧
    (∀ (s : EngineState) (l : String) (fs1 fs2 : List Frame) (g : Frame),
      s.stabilityBuffer = [] → s.inCooldown = false →
      s.acceptedGesture ≠ some l → g.pred.label = "NONE" →
      (∀ f ∈ fs1, okFrame f l) → (∀ f ∈ fs2, okFrame f l) →
      fs1.length + fs2.length = STABILITY_FRAMES → fs2 ≠ [] →
      ∃ t, runFrames s (fs1 ++ g :: fs2) =
        .ok (acceptState l t,
          List.replicate fs1.length none ++ none ::
            (List.replicate (fs2.length - 1) none ++
              [some (acceptEvent l)]))) := by
  constructor
  · intro s pred lms now h
    exact processFrame_sentinel s pred lms now (Or.inr h)
  · intro s l fs1 fs2 g hbuf hcd hacc hg hok1 hok2 hlen hfs2
    rcases List.eq_nil_or_concat fs2 with rfl | ⟨fs2', fl, hfs⟩
    · exact absurd rfl hfs2
    rw [List.concat_eq_append] at hfs
    subst hfs
    refine ⟨fl.now, ?_⟩
    have h1 := feedAgreeRun fs1 s l hcd hok1
      (by rw [hbuf]
          simp only [List.length_nil, List.length_append, List.length_cons]
            at hlen ⊢
          omega)
    have hstep2 : processFrame
        { s with stabilityBuffer := s.stabilityBuffer ++ fs1.map (sampleOf l) }
        g.pred g.lms g.now =
        .ok ({ s with stabilityBuffer :=
            s.stabilityBuffer ++ fs1.map (sampleOf l) }, none) :=
      processFrame_sentinel _ _ _ _ (Or.inr hg)
    have h3 := feedToAccept fs2' fl
      { s with stabilityBuffer := s.stabilityBuffer ++ fs1.map (sampleOf l) }
      l hcd hacc
      (by intro p hp
          rw [hbuf] at hp
          simp only [List.nil_append] at hp
          obtain ⟨f, _, hf⟩ := List.mem_map.1 hp
          rw [← hf]
          rfl)
      (by rw [hbuf]
          simp only [List.nil_append, List.length_map]
          simp only [List.length_append, List.length_cons, List.length_nil]
            at hlen
          omega)
      (fun f hf => hok2 f (List.mem_append_left _ hf))
      (hok2 fl (List.mem_append_right _ (List.mem_singleton_self _)))
    have hrun2 : runFrames
        { s with stabilityBuffer := s.stabilityBuffer ++ fs1.map (sampleOf l) }
        (g :: (fs2' ++ [fl])) =
        .ok (acceptState l fl.now,
          none :: (List.replicate fs2'.length none ++
            [some (acceptEvent l)])) := by
      rw [runFrames_cons_ok _ _ _ g _ hstep2, h3]
    have hfull := runFrames_append _ _ _ fs1 (g :: (fs2' ++ [fl])) _ _ h1 hrun2
    rw [hfull, show (fs2' ++ [fl]).length - 1 = fs2'.length from by simp]

/-- Witness for C6: a NONE frame leaves a mid-stabilization state
untouched, and 3 agreeing frames, a NONE frame, then 5 more agreeing
frames still produce exactly one acceptance, on the last call. -/
theorem c6_witness :
    processFrame ⟨[⟨"OPEN_PALM", 1, 5⟩], none, 0, false⟩
        ⟨"NONE", 1, "", ""⟩ [] 6 =
      .ok (⟨[⟨"OPEN_PALM", 1, 5⟩], none, 0, false⟩, none) ∧
    (∃ t, runFrames initState
        (List.replicate 3 (wFrame "OPEN_PALM" 5) ++ wFrame "NONE" 6 ::
          List.replicate 5 (wFrame "OPEN_PALM" 7)) =
      .ok (acceptState "OPEN_PALM" t,
        List.replicate 3 none ++ none ::
          (List.replicate 4 none ++ [some (acceptEvent "OPEN_PALM")]))) := by
  constructor
  · exact c6_none_frame_tolerated.1 _ _ _ _ rfl
  · have h := c6_none_frame_tolerated.2 initState "OPEN_PALM"
      (List.replicate 3 (wFrame "OPEN_PALM" 5))
      (List.replicate 5 (wFrame "OPEN_PALM" 7)) (wFrame "NONE" 6)
      rfl rfl (by simp [initState]) rfl
      (fun f hf => by
        rw [List.eq_of_mem_replicate hf]
        exact ⟨by decide, by decide, rfl⟩)
      (fun f hf => by
        rw [List.eq_of_mem_replicate hf]
        exact ⟨by decide, by decide, rfl⟩)
      (by simp [STABILITY_FRAMES]) (by simp)
    simpa using h

/-- Claim C2 counterexample: after an acceptance at time 5, eight more
OPEN_PALM frames at time 3000 (past the 2500 ms cooldown) all return no
event, but the stability buffer is left holding those eight samples —
it is NOT reset to empty as the claim states. -/
theorem c2_counterexample :
    runFrames initState
        (List.replicate 8 (wFrame "OPEN_PALM" 5) ++
          List.replicate 8 (wFrame "OPEN_PALM" 3000)) =
      .ok (⟨List.replicate 8 ⟨"OPEN_PALM", 1, 3000⟩, some "OPEN_PALM", 5,
          false⟩,
        List.replicate 7 none ++ some (acceptEvent "OPEN_PALM") ::
          List.replicate 8 none) ∧
    (List.replicate 8 (⟨"OPEN_PALM", 1, 3000⟩ : StabilitySample)) ≠ [] :=
  ⟨rfl, by simp⟩

/-- Claim C2 (amended): after an acceptance at a nonzero time, every
call within `GESTURE_COOLDOWN_MS` returns no event and leaves the state
unchanged; after the window elapses, a full window of frames whose gated
label equals `acceptedGesture` returns no events but leaves the buffer
HOLDING those `W` samples (not empty); nevertheless a differing gesture
still stabilizes in `W` consecutive frames, because the rolling window
evicts the stale samples FIFO. -/
theorem c2_cooldown_exclusivity :
    (∀ (s s' : EngineState) (pred : MLPrediction) (lms : List Landmark)
        (now : ℤ) (ev : GestureEvent) (gs : List Frame),
      processFrame s pred lms now = .ok (s', some ev) → now ≠ 0 →
      (∀ g ∈ gs, g.now - now < GESTURE_COOLDOWN_MS) →
      runFrames s' gs = .ok (s', List.replicate gs.length none)) ∧
    (∀ (l : String) (t : ℤ) (f1 rl : Frame) (rest : List Frame),
      t ≠ 0 → okFrame f1 l → (∀ f ∈ rest, okFrame f l) → okFrame rl l →
      rest.length + 2 = STABILITY_FRAMES →
      ¬ f1.now - t < GESTURE_COOLDOWN_MS →
      runFrames (acceptState l t) (f1 :: (rest ++ [rl])) =
        .ok ({ stabilityBuffer := (f1 :: (rest ++ [rl])).map (sampleOf l)
               acceptedGesture := some l
               acceptedTimestamp := t
               inCooldown := false },
          List.replicate STABILITY_FRAMES none)) ∧
    (∀ (s : EngineState) (l m : String) (gs : List Frame) (gl : Frame),
      m ≠ l → s.inCooldown = false → s.acceptedGesture ≠ some m →
      s.stabilityBuffer.length = STABILITY_FRAMES →
      (∀ p ∈ s.stabilityBuffer, p.label = l) →
      (∀ g ∈ gs, okFrame g m) → okFrame gl m →
      gs.length + 1 = STABILITY_FRAMES →
      runFrames s (gs ++ [gl]) =
        .ok (acceptState m gl.now,
          List.replicate gs.length none ++ [some (acceptEvent m)])) := by
  refine ⟨?_, ?_, ?_⟩
  · intro s s' pred lms now ev gs hacc hnow htimes
    obtain ⟨hflag, hts⟩ := processFrame_accept_inv s s' pred lms now ev hacc
    exact lockedRun gs s' hflag (by rw [hts]; exact hnow)
      (fun g hg => by rw [hts]; exact htimes g hg)
  · intro l t f1 rl rest ht hf1 hrest hrl hlen hexp
    exact postExpiryHold l t f1 rl rest ht hf1 hrest hrl hlen hexp
  · intro s l m gs gl hml hcd hacc hlen hall hgs hgl hcount
    exact rollThenAccept s l m gs gl hml hcd hacc hlen hall hgs hgl hcount

/-- Witness for C2: a concrete acceptance at time 5, an ignored frame at
time 100, a post-expiry same-label window at times 3000-3002 leaving the
buffer full, and a differing PEACE_SIGN window stabilizing from that
full buffer. -/
theorem c2_witness :
    runFrames (acceptState "OPEN_PALM" 5) [wFrame "CLOSED_FIST" 100] =
      .ok (acceptState "OPEN_PALM" 5, List.replicate 1 none) ∧
    runFrames (acceptState "OPEN_PALM" 5)
        (wFrame "OPEN_PALM" 3000 ::
          (List.replicate 6 (wFrame "OPEN_PALM" 3001) ++
            [wFrame "OPEN_PALM" 3002])) =
      .ok ({ stabilityBuffer :=
              (wFrame "OPEN_PALM" 3000 ::
                (List.replicate 6 (wFrame "OPEN_PALM" 3001) ++
                  [wFrame "OPEN_PALM" 3002])).map (sampleOf "OPEN_PALM")
             acceptedGesture := some "OPEN_PALM"
             acceptedTimestamp := 5
             inCooldown := false },
        List.replicate STABILITY_FRAMES none) ∧
    runFrames ⟨List.replicate 8 ⟨"OPEN_PALM", 1, 3002⟩, some "OPEN_PALM", 5,
        false⟩
        (List.replicate 7 (wFrame "PEACE_SIGN" 4000) ++
          [wFrame "PEACE_SIGN" 4001]) =
      .ok (acceptState "PEACE_SIGN" 4001,
        List.replicate 7 none ++ [some (acceptEvent "PEACE_SIGN")]) := by
  refine ⟨?_, ?_, ?_⟩
  · exact c2_cooldown_exclusivity.1
      ⟨List.replicate 7 ⟨"OPEN_PALM", 1, 5⟩, none, 0, false⟩
      (acceptState "OPEN_PALM" 5) ⟨"OPEN_PALM", 1, "", ""⟩ [] 5
      (acceptEvent "OPEN_PALM") [wFrame "CLOSED_FIST" 100] rfl (by decide)
      (by intro g hg
          simp only [List.mem_singleton] at hg
          rw [hg]
          decide)
  · exact c2_cooldown_exclusivity.2.1 "OPEN_PALM" 5 (wFrame "OPEN_PALM" 3000)
      (wFrame "OPEN_PALM" 3002) (List.replicate 6 (wFrame "OPEN_PALM" 3001))
      (by decide) ⟨by decide, by decide, rfl⟩
      (fun f hf => by
        rw [List.eq_of_mem_replicate hf]
        exact ⟨by decide, by decide, rfl⟩)
      ⟨by decide, by decide, rfl⟩ (by simp [STABILITY_FRAMES]) (by decide)
  · exact c2_cooldown_exclusivity.2.2
      ⟨List.replicate 8 ⟨"OPEN_PALM", 1, 3002⟩, some "OPEN_PALM", 5, false⟩
      "OPEN_PALM" "PEACE_SIGN" (List.replicate 7 (wFrame "PEACE_SIGN" 4000))
      (wFrame "PEACE_SIGN" 4001) (by decide) rfl (by decide)
      (by decide) (fun p hp => by rw [List.eq_of_mem_replicate hp])
      (fun g hg => by
        rw [List.eq_of_mem_replicate hg]
        exact ⟨by decide, by decide, rfl⟩)
      ⟨by decide, by decide, rfl⟩ (by simp [STABILITY_FRAMES])

/-- Claim C4 counterexample: the out-of-vocabulary label "FOO" is NOT
treated like the NONE sentinel: a NONE frame leaves the state unchanged,
but a "FOO" frame pushes a sample into the stability buffer. -/
theorem c4_counterexample :
    processFrame initState ⟨"FOO", 1, "", ""⟩ [] 5 =
      .ok ({ initState with stabilityBuffer := [⟨"FOO", 1, 5⟩] }, none) ∧
    processFrame initState ⟨"NONE", 1, "", ""⟩ [] 5 = .ok (initState, none) ∧
    ({ initState with stabilityBuffer :=
        [(⟨"FOO", 1, 5⟩ : StabilitySample)] } : EngineState) ≠ initState := by
  refine ⟨rfl, rfl, fun h => ?_⟩
  have := congrArg EngineState.stabilityBuffer h
  simp [initState] at this

/-- Claim C4 (amended): only a falsy label (empty string, modelling
`null`/`undefined`) is treated like the NONE sentinel.  Any other label
outside the five-gesture vocabulary is processed like a vocabulary
label: from a clean idle state it is pushed into the stability buffer
(state mutated), and a full window of agreeing such frames yields an
acceptance event whose `gestureType` is `none` and whose phrase is the
fallback text. -/
theorem c4_unknown_label_processed :
    (∀ (s : EngineState) (pred : MLPrediction) (lms : List Landmark)
        (now : ℤ),
      pred.label = "" → processFrame s pred lms now = .ok (s, none)) ∧
    (∀ (s : EngineState) (pred : MLPrediction) (lms : List Landmark)
        (now : ℤ),
      pred.label ∉ (["OPEN_PALM", "CLOSED_FIST", "THUMBS_UP", "POINTING_UP",
        "PEACE_SIGN"] : List String) →
      pred.label ≠ "" → pred.label ≠ "NONE" →
      s.stabilityBuffer = [] → s.inCooldown = false →
      processFrame s pred lms now =
        .ok ({ s with stabilityBuffer :=
            [⟨pred.label, pred.confidence, now⟩] }, none)) ∧
    (∀ (s : EngineState) (l : String) (fs : List Frame),
      l ∉ (["OPEN_PALM", "CLOSED_FIST", "THUMBS_UP", "POINTING_UP",
        "PEACE_SIGN"] : List String) →
      l ≠ "" → l ≠ "NONE" →
      s.stabilityBuffer = [] → s.inCooldown = false →
      s.acceptedGesture ≠ some l →
      fs.length = STABILITY_FRAMES → (∀ f ∈ fs, f.pred.label = l) →
      (∃ t, runFrames s fs =
        .ok (acceptState l t,
          List.replicate (STABILITY_FRAMES - 1) none ++
            [some (acceptEvent l)])) ∧
      (acceptEvent l).gestureType = none ∧
      (acceptEvent l).phrase = "Waiting for input…") := by
  refine ⟨?_, ?_, ?_⟩
  · intro s pred lms now h
    exact processFrame_sentinel s pred lms now (Or.inl h)
  · intro s pred lms now hnot h1 h2 hbuf hcd
    have hTU : pred.label ≠ "THUMBS_UP" := by
      intro h
      exact hnot (by rw [h]; simp)
    have hstep := step_grow s ⟨pred, lms, now⟩ pred.label hcd
      ⟨h1, h2, applyDecisionGates_of_ne _ _ _ hTU⟩
      (by rw [hbuf]; simp [STABILITY_FRAMES])
    rw [hbuf] at hstep
    simpa using hstep
  · intro s l fs hnot h1 h2 hbuf hcd hacc hlen hlabels
    have hTU : l ≠ "THUMBS_UP" := by
      intro h
      exact hnot (by rw [h]; simp)
    have hok : ∀ f ∈ fs, okFrame f l := by
      intro f hf
      refine ⟨?_, ?_, ?_⟩
      · rw [hlabels f hf]
        exact h1
      · rw [hlabels f hf]
        exact h2
      · rw [hlabels f hf]
        exact applyDecisionGates_of_ne _ _ _ hTU
    have hgt : labelToGestureType l = none := by
      unfold labelToGestureType
      rw [if_neg (fun h => hnot (by rw [h]; simp)),
        if_neg (fun h => hnot (by rw [h]; simp)),
        if_neg (fun h => hnot (by rw [h]; simp)),
        if_neg (fun h => hnot (by rw [h]; simp)),
        if_neg (fun h => hnot (by rw [h]; simp))]
    have hph : labelToPhrase l = "Waiting for input…" := by
      unfold labelToPhrase
      rw [if_neg (fun h => hnot (by rw [h]; simp)),
        if_neg (fun h => hnot (by rw [h]; simp)),
        if_neg (fun h => hnot (by rw [h]; simp)),
        if_neg (fun h => hnot (by rw [h]; simp)),
        if_neg (fun h => hnot (by rw [h]; simp))]
    refine ⟨?_, ?_, hph⟩
    · rcases List.eq_nil_or_concat fs with rfl | ⟨fs', fl, hfs⟩
      · simp [STABILITY_FRAMES] at hlen
      rw [List.concat_eq_append] at hfs
      subst hfs
      refine ⟨fl.now, ?_⟩
      have h8 : fs'.length + 1 = STABILITY_FRAMES := by
        simpa using hlen
      have hthis := feedToAccept fs' fl s l hcd hacc
        (by rw [hbuf]; simp)
        (by rw [hbuf]; simp only [List.length_nil]; omega)
        (fun f hf => hok f (List.mem_append_left _ hf))
        (hok fl (List.mem_append_right _ (List.mem_singleton_self _)))
      rw [hthis, show fs'.length = STABILITY_FRAMES - 1 from by omega]
    · show labelToGestureType l = none
      exact hgt

/-- Witness for C4 at the unknown label "FOO": the empty label is
ignored, one FOO frame mutates the buffer, and eight FOO frames yield an
acceptance carrying no gestureType and the fallback phrase. -/
theorem c4_witness :
    processFrame initState ⟨"", 1, "", ""⟩ [] 5 = .ok (initState, none) ∧
    processFrame initState ⟨"FOO", 1, "", ""⟩ [] 5 =
      .ok ({ initState with stabilityBuffer := [⟨"FOO", 1, 5⟩] }, none) ∧
    ((∃ t, runFrames initState (List.replicate 8 (wFrame "FOO" 5)) =
        .ok (acceptState "FOO" t,
          List.replicate (STABILITY_FRAMES - 1) none ++
            [some (acceptEvent "FOO")])) ∧
      (acceptEvent "FOO").gestureType = none ∧
      (acceptEvent "FOO").phrase = "Waiting for input…") := by
  refine ⟨?_, ?_, ?_⟩
  · exact c4_unknown_label_processed.1 initState ⟨"", 1, "", ""⟩ [] 5 rfl
  · exact c4_unknown_label_processed.2.1 initState ⟨"FOO", 1, "", ""⟩ [] 5
      (by decide) (by decide) (by decide) rfl rfl
  · exact c4_unknown_label_processed.2.2 initState "FOO"
      (List.replicate 8 (wFrame "FOO" 5)) (by decide) (by decide) (by decide)
      rfl rfl (by simp [initState]) (by simp [STABILITY_FRAMES])
      (fun f hf => by rw [List.eq_of_mem_replicate hf]; rfl)

/-- Claim C7 counterexample: a frame with label OPEN_PALM and a
malformed (empty, zero-point) pose does not raise or return any error —
it is processed normally and even mutates the stability buffer. -/
theorem c7_counterexample :
    processFrame initState ⟨"OPEN_PALM", 1, "", ""⟩ [] 5 =
      .ok ({ initState with stabilityBuffer := [⟨"OPEN_PALM", 1, 5⟩] },
        none) :=
  rfl

/-- Claim C7 (amended): the implementation does not validate the pose.
Landmarks are only read when the (non-sentinel) label is THUMBS_UP and
the cooldown is inactive; in that case a malformed pose makes the call
throw (modelled `Except.error`).  For every other label the call
succeeds regardless of the pose, silently degrading. -/
theorem c7_fail_fast_only_thumbs_up :
    (∀ (s : EngineState) (pred : MLPrediction) (now : ℤ),
      s.inCooldown = false → pred.label = "THUMBS_UP" →
      processFrame s pred [] now = .error s) ∧
    (∀ (s : EngineState) (pred : MLPrediction) (lms : List Landmark)
        (now : ℤ),
      pred.label ≠ "THUMBS_UP" →
      ∃ r, processFrame s pred lms now = .ok r) := by
  constructor
  · intro s pred now hcd hlab
    unfold processFrame
    rw [if_neg (by rw [hlab]; simp), isInCooldown_of_flag_false now hcd]
    dsimp only
    rw [show applyDecisionGates pred.label pred.confidence [] = none from by
      rw [hlab]; rfl]
  · intro s pred lms now hlab
    by_cases hs : pred.label = "" ∨ pred.label = "NONE"
    · exact ⟨(s, none), processFrame_sentinel s pred lms now hs⟩
    · unfold processFrame
      rw [if_neg hs]
      rcases isInCooldown_shape s now with h | h | ⟨h, _, _, _⟩ <;> rw [h] <;>
          dsimp only
      · exact ⟨_, rfl⟩
      · rw [applyDecisionGates_of_ne _ _ _ hlab]
        dsimp only
        rw [updateStabilityBuffer_eq]
        cases hst : stableCheck (pushBound s.stabilityBuffer
            ⟨pred.label, pred.confidence, now⟩) with
        | none => exact ⟨_, rfl⟩
        | some st =>
          dsimp only
          split
          · exact ⟨_, rfl⟩
          · exact ⟨_, rfl⟩
      · rw [applyDecisionGates_of_ne _ _ _ hlab]
        dsimp only
        rw [updateStabilityBuffer_eq]
        cases hst : stableCheck (pushBound
            ({ s with inCooldown := false } : EngineState).stabilityBuffer
            ⟨pred.label, pred.confidence, now⟩) with
        | none => exact ⟨_, rfl⟩
        | some st =>
          dsimp only
          split
          · exact ⟨_, rfl⟩
          · exact ⟨_, rfl⟩

/-- Witness for C7: a malformed pose with THUMBS_UP throws; the same
malformed pose with OPEN_PALM succeeds. -/
theorem c7_witness :
    processFrame initState ⟨"THUMBS_UP", 1, "", ""⟩ [] 5 =
      .error initState ∧
    (∃ r, processFrame initState ⟨"OPEN_PALM", 1, "", ""⟩ [] 5 = .ok r) :=
  ⟨c7_fail_fast_only_thumbs_up.1 initState ⟨"THUMBS_UP", 1, "", ""⟩ 5 rfl rfl,
    c7_fail_fast_only_thumbs_up.2 initState ⟨"OPEN_PALM", 1, "", ""⟩ [] 5
      (by decide)⟩
